import Mathlib

/-!
Shallow embedding of the prediction view-model layer of the wildfire
dashboard (frontend/src/App.jsx): response normalization, size fallback
resolution, display fallbacks, input-change handlers and the request
lifecycle.  JavaScript numbers are modelled as rationals extended with
NaN and the signed infinities; loosely-typed JavaScript field values as a
small dynamic value type.  String rendering of non-integral numbers is
approximated where no verified property depends on it.
-/

/-- A JavaScript number: a finite value (modelled exactly as a rational)
or one of the non-finite values NaN, Infinity and -Infinity. -/
inductive JsNum where
  | fin (q : ℚ)
  | nan
  | posInf
  | negInf
  deriving DecidableEq

/-- A loosely-typed JavaScript value as it appears in parsed JSON fields;
undef models an absent field. -/
inductive JVal where
  | undef
  | null
  | num (n : JsNum)
  | str (s : String)
  | bool (b : Bool)
  deriving DecidableEq

namespace JsNum

/-- Number.isFinite. -/
def isFinite : JsNum → Bool
  | fin _ => true
  | _ => false

/-- Division of a JavaScript number by 100; finite values are exact,
non-finite values are preserved as in IEEE arithmetic. -/
def div100 : JsNum → JsNum
  | fin q => fin (q / 100)
  | n => n

/-- String conversion of a JavaScript number.  Integral finite values
render as their decimal digits; non-integral finite values are
approximated by the rational's own rendering (no verified property
depends on them). -/
def jsToString : JsNum → String
  | fin q => if q.den = 1 then toString q.num else toString q
  | nan => "NaN"
  | posInf => "Infinity"
  | negInf => "-Infinity"

end JsNum

namespace JVal

/-- The JavaScript typeof-number test; true for NaN and the infinities. -/
def isNumber : JVal → Bool
  | num _ => true
  | _ => false

/-- v is null or undefined (nullish). -/
def isNullish : JVal → Bool
  | undef => true
  | null => true
  | _ => false

/-- JavaScript truthiness. -/
def truthy : JVal → Bool
  | undef => false
  | null => false
  | num (.fin q) => decide (q ≠ 0)
  | num .nan => false
  | num _ => true
  | str s => decide (s ≠ "")
  | bool b => b

/-- String conversion of a JavaScript value. -/
def jsToString : JVal → String
  | undef => "undefined"
  | null => "null"
  | num n => n.jsToString
  | str s => s
  | bool true => "true"
  | bool false => "false"

end JVal

/-- The nullish-coalescing operator: a if a is not nullish, else b. -/
def jOr (a b : JVal) : JVal := if a.isNullish then b else a

/-- A trailing nullish coalesce to null: collapses undefined to null. -/
def jnullify (a : JVal) : JVal := if a.isNullish then JVal.null else a

/-- A raw cause entry as read from the response: the fields the code
accesses, each an arbitrary JavaScript value, undefined when absent. -/
structure RawCauseEntry where
  label : JVal := .undef
  cause : JVal := .undef
  probability : JVal := .undef
  value : JVal := .undef
  expected_acres : JVal := .undef
  min_acres : JVal := .undef
  max_acres : JVal := .undef
  deriving DecidableEq

/-- The typeof-number guard on acreage fields: the number when the field
is numeric, else null. -/
def numOrNull : JVal → Option JsNum
  | .num n => some n
  | _ => none

/-- A normalized cause estimate, an element of normalizedCauses. -/
structure NormCause where
  label : JVal
  probability : ℚ
  expected_acres : Option JsNum
  min_acres : Option JsNum
  max_acres : Option JsNum
  deriving DecidableEq

/-- The resolved probability fraction before the finiteness guard:
the probability field when it is numeric, else value divided by 100 when
the value field is numeric, else 0. -/
def resolveFraction (e : RawCauseEntry) : JsNum :=
  match e.probability with
  | .num n => n
  | _ =>
    match e.value with
    | .num n => n.div100
    | _ => .fin 0

/-- The clamp Math.max(0, Math.min(1, q)). -/
def clamp01 (q : ℚ) : ℚ := max 0 (min 1 q)

/-- The finiteness guard: the value when finite, else 0. -/
def finiteOrZero : JsNum → ℚ
  | .fin q => q
  | _ => 0

/-- Normalization of one raw cause entry. -/
def normalizeEntry (e : RawCauseEntry) : NormCause :=
  { label := jOr e.label (jOr e.cause (.str ("Unlabeled cause")))
    probability := clamp01 (finiteOrZero (resolveFraction e))
    expected_acres := numOrNull e.expected_acres
    min_acres := numOrNull e.min_acres
    max_acres := numOrNull e.max_acres }

/-- normalizedCauses: map every raw entry through normalization, then
drop the entries whose clamped probability is not strictly positive. -/
def normalizedCauses (entries : List RawCauseEntry) : List NormCause :=
  (entries.map normalizeEntry).filter (fun item => decide (0 < item.probability))

/-- The explicit size object shape of a response. -/
structure SizeObj where
  expected_acres : JVal := .undef
  min_acres : JVal := .undef
  max_acres : JVal := .undef
  deriving DecidableEq

/-- The nested cause object of a response. -/
structure CauseObj where
  label : JVal := .undef
  probabilities : Option (List RawCauseEntry) := none
  deriving DecidableEq

/-- A parsed 2xx response body object, restricted to the fields the code
reads; none models an absent or null field, and array-valued fields are
modelled as optional lists. -/
structure Prediction where
  cause : Option CauseObj := none
  cause_probabilities : Option (List RawCauseEntry) := none
  sizes_by_cause : Option (List RawCauseEntry) := none
  size : Option SizeObj := none
  predicted_size_acres : JVal := .undef
  size_min_acres : JVal := .undef
  size_max_acres : JVal := .undef
  predicted_cause : JVal := .undef
  detail : JVal := .undef
  deriving DecidableEq

/-- The empty object an empty or unparseable 2xx body defaults to. -/
def emptyPrediction : Prediction := {}

/-- The optional-chained cause-probability source of the held prediction. -/
def backendCauseProbabilities (p : Option Prediction) : List RawCauseEntry :=
  match p with
  | none => []
  | some pr =>
    match pr.cause.bind (fun c => c.probabilities) with
    | some l => l
    | none => pr.cause_probabilities.getD []

/-- The sizes_by_cause source of the held prediction, defaulting to empty. -/
def sizesByCause (p : Option Prediction) : List RawCauseEntry :=
  (p.bind (fun pr => pr.sizes_by_cause)).getD []

/-- Raw cause entries: sizes_by_cause when non-empty, else the
cause-probability source. -/
def rawCauseEntries (p : Option Prediction) : List RawCauseEntry :=
  if 0 < (sizesByCause p).length then sizesByCause p else backendCauseProbabilities p

/-- The normalized cause list the view derives from the held prediction. -/
def predCauses (p : Option Prediction) : List NormCause :=
  normalizedCauses (rawCauseEntries p)

/-- The top-ranked normalized cause entry, when one exists. -/
def topCauseEntry (p : Option Prediction) : Option NormCause :=
  (predCauses p).head?

/-- The trailing null coalesce on normalized acreage fields: the number
when present, else null. -/
def optNumToJVal : Option JsNum → JVal
  | some n => .num n
  | none => .null

/-- The first two steps of the size chain: the explicit size object,
else a size object built from the legacy flat fields when the legacy
predicted_size_acres is not nullish, else none. -/
def fallbackSizeResult (p : Option Prediction) : Option SizeObj :=
  match p with
  | none => none
  | some pr =>
    match pr.size with
    | some s => some s
    | none =>
      if pr.predicted_size_acres.isNullish then none
      else some { expected_acres := pr.predicted_size_acres
                  min_acres := jnullify pr.size_min_acres
                  max_acres := jnullify pr.size_max_acres }

/-- The full size-source chain: fallbackSizeResult, else a size object
built from the top cause entry's acreage fields, else none. -/
def sizeResult (p : Option Prediction) : Option SizeObj :=
  match fallbackSizeResult p with
  | some s => some s
  | none =>
    match topCauseEntry p with
    | some c => some { expected_acres := optNumToJVal c.expected_acres
                       min_acres := optNumToJVal c.min_acres
                       max_acres := optNumToJVal c.max_acres }
    | none => none

/-- The resolved expected size value: the chosen size object's field,
else the legacy flat field, else null. -/
def expectedSizeValue (p : Option Prediction) : JVal :=
  jnullify (jOr ((sizeResult p).elim JVal.undef (fun s => s.expected_acres))
                (p.elim JVal.undef (fun pr => pr.predicted_size_acres)))

/-- The resolved minimum size value: the chosen size object's field,
else the legacy flat field, else null. -/
def minSizeValue (p : Option Prediction) : JVal :=
  jnullify (jOr ((sizeResult p).elim JVal.undef (fun s => s.min_acres))
                (p.elim JVal.undef (fun pr => pr.size_min_acres)))

/-- The resolved maximum size value: the chosen size object's field,
else the legacy flat field, else null. -/
def maxSizeValue (p : Option Prediction) : JVal :=
  jnullify (jOr ((sizeResult p).elim JVal.undef (fun s => s.max_acres))
                (p.elim JVal.undef (fun pr => pr.size_max_acres)))

/-- The static placeholder size triple. -/
structure SizeTriple where
  expected : ℚ
  min : ℚ
  max : ℚ
  deriving DecidableEq

/-- The static placeholder triple shown when a size field resolves to null. -/
def SIZE_PLACEHOLDER : SizeTriple := { expected := 3807, min := 2284, max := 5711 }

/-- The value the size panel formats for expected size: the resolved
value when non-null, else the static placeholder. -/
def displayedExpectedInput (p : Option Prediction) : JVal :=
  if expectedSizeValue p = JVal.null then .num (.fin SIZE_PLACEHOLDER.expected)
  else expectedSizeValue p

/-- The value the size panel formats for the minimum of the range. -/
def displayedMinInput (p : Option Prediction) : JVal :=
  if minSizeValue p = JVal.null then .num (.fin SIZE_PLACEHOLDER.min)
  else minSizeValue p

/-- The value the size panel formats for the maximum of the range. -/
def displayedMaxInput (p : Option Prediction) : JVal :=
  if maxSizeValue p = JVal.null then .num (.fin SIZE_PLACEHOLDER.max)
  else maxSizeValue p

/-- JavaScript Number conversion of a value.  Numeric-string parsing is
not modelled (approximated as NaN): no verified property reaches it. -/
def jsNumberOf : JVal → JsNum
  | .num n => n
  | .null => .fin 0
  | .undef => .nan
  | .bool b => .fin (if b then 1 else 0)
  | .str _ => .nan

/-- Rounding half away from zero to an integer. -/
def roundHalfExpand (q : ℚ) : ℤ :=
  if q < 0 then -⌊(-q) + 1/2⌋ else ⌊q + 1/2⌋

/-- Insert thousands separators into a reversed digit list; the counter
is the number of digits already consumed. -/
def commaRev : List Char → ℕ → List Char
  | [], _ => []
  | c :: rest, i =>
    (if 0 < i ∧ i % 3 = 0 then [',', c] else [c]) ++ commaRev rest (i + 1)

/-- Decimal digits of a natural number with en-US thousands grouping. -/
def groupDigits (n : ℕ) : String :=
  String.mk ((commaRev (toString n).toList.reverse 0).reverse)

/-- formatAcres: a dash for nullish or NaN input, else the number
rounded to one decimal place with thousands grouping. -/
def formatAcres (value : JVal) : String :=
  if value.isNullish then "-"
  else
    match jsNumberOf value with
    | .nan => "-"
    | .posInf => "∞"
    | .negInf => "-∞"
    | .fin q =>
      let t : ℤ := roundHalfExpand (q * 10)
      let sign := if t < 0 then "-" else ""
      sign ++ groupDigits (t.natAbs / 10) ++ "." ++ toString (t.natAbs % 10)

/-- The formatted expected-size string of the size panel. -/
def expectedSizeDisplay (p : Option Prediction) : String :=
  formatAcres (displayedExpectedInput p)

/-- The formatted minimum-range string of the size panel. -/
def minSizeDisplay (p : Option Prediction) : String :=
  formatAcres (displayedMinInput p)

/-- The formatted maximum-range string of the size panel. -/
def maxSizeDisplay (p : Option Prediction) : String :=
  formatAcres (displayedMaxInput p)

/-- One static placeholder cause with its fixed percentage. -/
structure PlaceholderCause where
  label : String
  value : ℤ
  deriving DecidableEq

/-- The fixed list of 4 static placeholder causes. -/
def PLACEHOLDER_CAUSES : List PlaceholderCause :=
  [ { label := "Lightning Strike", value := 37 },
    { label := "Human Activity", value := 34 },
    { label := "Equipment Failure", value := 23 },
    { label := "Debris Burning", value := 19 } ]

/-- Math.round: rounding half toward positive infinity. -/
def jsRound (q : ℚ) : ℤ := ⌊q + 1/2⌋

/-- A cause row as prepared for display. -/
structure DisplayCause where
  label : JVal
  value : ℤ
  acres : Option JsNum
  minAcres : Option JsNum
  maxAcres : Option JsNum
  deriving DecidableEq

/-- The display row derived from one normalized cause. -/
def displayOfNorm (item : NormCause) : DisplayCause :=
  { label := item.label
    value := jsRound (item.probability * 100)
    acres := item.expected_acres
    minAcres := item.min_acres
    maxAcres := item.max_acres }

/-- The display rows derived from the static placeholder causes. -/
def placeholderDisplay : List DisplayCause :=
  PLACEHOLDER_CAUSES.map (fun item =>
    { label := .str item.label, value := item.value,
      acres := none, minAcres := none, maxAcres := none })

/-- displayedCauses: the first 4 normalized causes when any exist, else
the static placeholder rows. -/
def displayedCauses (p : Option Prediction) : List DisplayCause :=
  if 0 < (predCauses p).length then ((predCauses p).take 4).map displayOfNorm
  else placeholderDisplay

/-- One entry of the fixed state dropdown. -/
structure StateEntry where
  label : String
  value : String
  deriving DecidableEq

/-- The fixed state dropdown contents. -/
def STATES : List StateEntry :=
  [ ⟨"Alabama", "AL"⟩, ⟨"Alaska", "AK"⟩, ⟨"Arizona", "AZ"⟩, ⟨"Arkansas", "AR"⟩,
    ⟨"California", "CA"⟩, ⟨"Colorado", "CO"⟩, ⟨"Connecticut", "CT"⟩,
    ⟨"Delaware", "DE"⟩, ⟨"District of Columbia", "DC"⟩, ⟨"Florida", "FL"⟩,
    ⟨"Georgia", "GA"⟩, ⟨"Hawaii", "HI"⟩, ⟨"Idaho", "ID"⟩, ⟨"Illinois", "IL"⟩,
    ⟨"Indiana", "IN"⟩, ⟨"Iowa", "IA"⟩, ⟨"Kansas", "KS"⟩, ⟨"Kentucky", "KY"⟩,
    ⟨"Louisiana", "LA"⟩, ⟨"Maine", "ME"⟩, ⟨"Maryland", "MD"⟩,
    ⟨"Massachusetts", "MA"⟩, ⟨"Michigan", "MI"⟩, ⟨"Minnesota", "MN"⟩,
    ⟨"Mississippi", "MS"⟩, ⟨"Missouri", "MO"⟩, ⟨"Montana", "MT"⟩,
    ⟨"Nebraska", "NE"⟩, ⟨"Nevada", "NV"⟩, ⟨"New Hampshire", "NH"⟩,
    ⟨"New Jersey", "NJ"⟩, ⟨"New Mexico", "NM"⟩, ⟨"New York", "NY"⟩,
    ⟨"North Carolina", "NC"⟩, ⟨"North Dakota", "ND"⟩, ⟨"Ohio", "OH"⟩,
    ⟨"Oklahoma", "OK"⟩, ⟨"Oregon", "OR"⟩, ⟨"Pennsylvania", "PA"⟩,
    ⟨"Rhode Island", "RI"⟩, ⟨"South Carolina", "SC"⟩, ⟨"South Dakota", "SD"⟩,
    ⟨"Tennessee", "TN"⟩, ⟨"Texas", "TX"⟩, ⟨"Utah", "UT"⟩, ⟨"Vermont", "VT"⟩,
    ⟨"Virginia", "VA"⟩, ⟨"Washington", "WA"⟩, ⟨"West Virginia", "WV"⟩,
    ⟨"Wisconsin", "WI"⟩, ⟨"Wyoming", "WY"⟩ ]

/-- The fixed month names of the month dropdown. -/
def MONTHS : List String :=
  [ "January", "February", "March", "April", "May", "June", "July",
    "August", "September", "October", "November", "December" ]

/-- The initial guidance message shown before any submission. -/
def DEFAULT_STATUS_MESSAGE : String :=
  "Select a state and month, then click on the map to choose a location."

/-- The fixed refresh guidance message shown after inputs change. -/
def INPUT_CHANGED_MESSAGE : String :=
  "Inputs updated. Run prediction again to refresh the forecast."

/-- A captured map coordinate pair. -/
structure Coords where
  lat : ℚ
  lng : ℚ
  deriving DecidableEq

/-- The reactive state of the cause-and-size view. -/
structure UIState where
  coords : Option Coords := none
  monthIndex : ℕ := 0
  stateCode : String := ""
  message : String := DEFAULT_STATUS_MESSAGE
  statusTitle : String := "Awaiting selection"
  prediction : Option Prediction := none
  isPredicting : Bool := false
  deriving DecidableEq

/-- The dropdown entry matching the selected state code, when any. -/
def selectedState (code : String) : Option StateEntry :=
  STATES.find? (fun item => decide (item.value = code))

/-- The human-readable state display string. -/
def stateDisplay (code : String) : String :=
  match selectedState code with
  | some s => s.label ++ " (" ++ s.value ++ ")"
  | none => "Select a state"

/-- Zero-pad a natural number to four digits. -/
def pad4 (n : ℕ) : String :=
  String.mk (List.replicate (4 - (toString n).length) '0') ++ toString n

/-- toFixed with four digits on an exact rational. -/
def toFixed4 (q : ℚ) : String :=
  let sign := if q < 0 then "-" else ""
  let n : ℕ := (⌊|q| * 10000 + 1/2⌋).toNat
  sign ++ toString (n / 10000) ++ "." ++ pad4 (n % 10000)

/-- The dynamically composed message set when a map location is picked. -/
def locationMessage (c : Coords) (monthIndex : ℕ) (stateCode : String) : String :=
  let stateText := if stateCode = "" then "no state selected" else stateDisplay stateCode
  "Selected " ++ MONTHS.getD monthIndex ("undefined") ++ " location: " ++
    toFixed4 c.lat ++ ", " ++ toFixed4 c.lng ++ "; State: " ++ stateText ++
    ". Run prediction to refresh results."

/-- The month-dropdown change handler. -/
def handleMonthChange (s : UIState) (next : ℕ) : UIState :=
  if s.coords.isSome then
    { s with monthIndex := next, prediction := none,
             statusTitle := "Location captured", message := INPUT_CHANGED_MESSAGE }
  else
    { s with monthIndex := next, prediction := none,
             statusTitle := "Awaiting selection", message := DEFAULT_STATUS_MESSAGE }

/-- The state-dropdown change handler. -/
def handleStateChange (s : UIState) (next : String) : UIState :=
  { s with stateCode := next, prediction := none,
           message := if next ≠ "" then
                        (if s.coords.isSome then INPUT_CHANGED_MESSAGE
                         else DEFAULT_STATUS_MESSAGE)
                      else DEFAULT_STATUS_MESSAGE,
           statusTitle := if s.coords.isSome then "Location captured"
                          else "Awaiting selection" }

/-- The map click handler. -/
def handleLocationSelect (s : UIState) (c : Coords) : UIState :=
  { s with coords := some c, prediction := none,
           statusTitle := "Location captured",
           message := locationMessage c s.monthIndex s.stateCode }

/-- Whether the extended-probabilities note applies: sizes_by_cause is an
array with more than one entry. -/
def hasExtendedCauses (result : Prediction) : Bool :=
  match result.sizes_by_cause with
  | some l => decide (1 < l.length)
  | none => false

/-- The cause label of the success banner. -/
def summaryCauseLabel (result : Prediction) : JVal :=
  jOr (result.cause.elim JVal.undef (fun c => c.label))
    (jOr result.predicted_cause
      (jOr (match result.sizes_by_cause with
            | some (e :: _) => e.label
            | _ => JVal.undef)
        (.str ("Unknown cause"))))

/-- The acreage value of the success banner, null when none resolves. -/
def summaryAcresValue (result : Prediction) : JVal :=
  jnullify (jOr (result.size.elim JVal.undef (fun s => s.expected_acres))
    (jOr result.predicted_size_acres
      (match result.sizes_by_cause with
       | some (e :: _) => e.expected_acres
       | _ => JVal.undef)))

/-- The summary banner composed on success: the likely-cause sentence,
an acreage sentence when an expected-acres value resolved, and an
extended-probabilities note when more than one cause entry exists. -/
def successMessage (result : Prediction) : String :=
  let base := "Likely cause: " ++ (summaryCauseLabel result).jsToString ++ "."
  let withAcres :=
    if summaryAcresValue result ≠ JVal.null then
      base ++ " Estimated size ≈ " ++ formatAcres (summaryAcresValue result) ++ " acres."
    else base
  if hasExtendedCauses result then
    withAcres ++ " Extended cause probabilities updated."
  else withAcres

/-- The optional-chained detail field of a parsed error body. -/
def detailOf (parsed : Option Prediction) : JVal :=
  parsed.elim JVal.undef (fun pr => pr.detail)

/-- The failure message chain: the truthy detail field (stringified),
else a non-empty HTTP status text, else the generic fallback. -/
def errorDetail (parsed : Option Prediction) (statusText : String) : String :=
  if (detailOf parsed).truthy then (detailOf parsed).jsToString
  else if statusText ≠ "" then statusText
  else "Prediction request failed."

/-- The outcome of the fetch: an HTTP response whose body has been read
and JSON-parsed (none models an empty or unparseable body), or a
network-level failure carrying the thrown error's message when the
thrown value was an Error. -/
inductive NetOutcome where
  | httpResponse (ok : Bool) (statusText : String) (parsed : Option Prediction)
  | networkError (msg : Option String)
  deriving DecidableEq

/-- handleRunPrediction as a pure transition on the view state: the
resulting state and whether a network request was issued.  The guards
run first and return without touching the held prediction or the
in-flight flag; otherwise the request is issued and the given network
outcome is handled. -/
def handleRunPrediction (s : UIState) (net : NetOutcome) : UIState × Bool :=
  if s.stateCode = "" then
    ({ s with statusTitle := "State required",
              message := "Select a state from the dropdown first." }, false)
  else
    match s.coords with
    | none =>
      ({ s with statusTitle := "Location required",
                message := "Select a location on the map first." }, false)
    | some _ =>
      let s1 := { s with isPredicting := true, prediction := none,
                         statusTitle := "Running prediction",
                         message := "Sending request to the backend..." }
      let s2 :=
        match net with
        | .httpResponse ok statusText parsed =>
          if ok then
            let result := parsed.getD emptyPrediction
            { s1 with prediction := some result,
                      statusTitle := "Prediction ready",
                      message := successMessage result }
          else
            { s1 with statusTitle := "Prediction failed",
                      message := errorDetail parsed statusText }
        | .networkError msg =>
          { s1 with statusTitle := "Prediction failed",
                    message := msg.getD ("Prediction failed. Please try again.") }
      ({ s2 with isPredicting := false }, true)

/-- The Lightning entry of the sizes_by_cause scenario. -/
def lightningEntry : RawCauseEntry :=
  { label := .str ("Lightning"), probability := .num (.fin (6/10)),
    expected_acres := .num (.fin 4000), min_acres := .num (.fin 2500),
    max_acres := .num (.fin 6000) }

/-- The Human entry of the sizes_by_cause scenario. -/
def humanEntry : RawCauseEntry :=
  { label := .str ("Human"), value := .num (.fin 25) }

/-- The sizes_by_cause scenario response. -/
def scenarioSizesByCause : Prediction :=
  { sizes_by_cause := some [lightningEntry, humanEntry] }

/-- A response whose explicit size object carries only a minimum while a
legacy flat expected value is also present. -/
def mixedSizePrediction : Prediction :=
  { size := some { min_acres := .num (.fin 5) },
    predicted_size_acres := .num (.fin 99) }

/-- A response carrying only the legacy flat expected size next to a
per-cause acreage. -/
def legacyWithCausePrediction : Prediction :=
  { predicted_size_acres := .num (.fin 99),
    sizes_by_cause := some [lightningEntry] }

/-- A view state holding a prediction, with a location and state set. -/
def baseHeldState : UIState :=
  { coords := some ⟨40, -100⟩, monthIndex := 0, stateCode := "CA",
    message := "Likely cause: Lightning.", statusTitle := "Prediction ready",
    prediction := some emptyPrediction, isPredicting := false }

/-- A view state ready to submit: a location and state set, no result. -/
def runReadyState : UIState :=
  { coords := some ⟨40, -100⟩, stateCode := "CA" }

/-- An error body whose detail field is present but empty. -/
def emptyDetailBody : Option Prediction := some { detail := .str ("") }

/-- The 404 error body of the coverage scenario. -/
def coverageDetailBody : Option Prediction :=
  some { detail := .str ("location out of coverage") }

/-- A raw entry whose probability field is the number Infinity. -/
def infProbEntry : RawCauseEntry := { probability := .num .posInf }

/-- A raw entry whose probability field is the number NaN. -/
def nanProbEntry : RawCauseEntry := { probability := .num .nan }

/-- A raw entry with probability one. -/
def posEntry : RawCauseEntry :=
  { label := .str ("A"), probability := .num (.fin 1) }

/-- A raw entry with probability zero. -/
def zeroEntry : RawCauseEntry :=
  { label := .str ("B"), probability := .num (.fin 0) }

/-- A view state with nothing selected yet. -/
def noInputState : UIState := {}

lemma mem_normalizedCauses_pos {c : NormCause} {entries : List RawCauseEntry}
    (h : c ∈ normalizedCauses entries) : 0 < c.probability :=
  of_decide_eq_true (List.mem_filter.mp h).2

lemma mem_normalizedCauses_mem_map {c : NormCause} {entries : List RawCauseEntry}
    (h : c ∈ normalizedCauses entries) : c ∈ entries.map normalizeEntry :=
  (List.mem_filter.mp h).1

lemma clamp01_nonneg (q : ℚ) : 0 ≤ clamp01 q := le_max_left 0 _

lemma clamp01_le_one (q : ℚ) : clamp01 q ≤ 1 :=
  max_le (by norm_num) (min_le_left 1 q)

lemma clamp01_zero : clamp01 0 = 0 := by
  unfold clamp01; norm_num

lemma clamp01_of_neg {q : ℚ} (h : q < 0) : clamp01 q = 0 := by
  unfold clamp01
  rw [min_eq_right (le_of_lt (lt_of_lt_of_le h (by norm_num)))]
  exact max_eq_left (le_of_lt h)

lemma clamp01_of_gt_one {q : ℚ} (h : 1 < q) : clamp01 q = 1 := by
  unfold clamp01
  rw [min_eq_left (le_of_lt h)]
  exact max_eq_right (by norm_num)

lemma clamp01_of_mem {q : ℚ} (h0 : 0 ≤ q) (h1 : q ≤ 1) : clamp01 q = q := by
  unfold clamp01
  rw [min_eq_right h1, max_eq_right h0]

lemma jnullify_of_not_nullish {v : JVal} (h : v.isNullish = false) :
    jnullify v = v := by simp [jnullify, h]

lemma jOr_of_not_nullish {v w : JVal} (h : v.isNullish = false) :
    jOr v w = v := by simp [jOr, h]

/-- C1 (amended): the size object is selected as a whole by the chain
(explicit size object, else a legacy-flat construction when
predicted_size_acres is not nullish, else the top cause's acreage
fields), but the displayed triple is resolved per field: each field takes
the selected object's field when non-nullish, else the corresponding
legacy flat field, else null, and a null field displays the matching
static placeholder component.  In particular a result carrying only a
legacy flat predicted_size_acres is never overridden by a per-cause
acreage, because the per-cause source is consulted only when both the
explicit size object and predicted_size_acres are absent. -/
theorem C1_amended (p : Prediction) :
    (∀ s, p.size = some s → sizeResult (some p) = some s) ∧
    (p.size = none → p.predicted_size_acres.isNullish = false →
      sizeResult (some p) =
        some { expected_acres := p.predicted_size_acres,
               min_acres := jnullify p.size_min_acres,
               max_acres := jnullify p.size_max_acres } ∧
      expectedSizeValue (some p) = p.predicted_size_acres) ∧
    (p.size = none → p.predicted_size_acres.isNullish = true →
      sizeResult (some p) =
        (topCauseEntry (some p)).map (fun c =>
          { expected_acres := optNumToJVal c.expected_acres,
            min_acres := optNumToJVal c.min_acres,
            max_acres := optNumToJVal c.max_acres })) ∧
    (∀ s, sizeResult (some p) = some s →
      expectedSizeValue (some p) = jnullify (jOr s.expected_acres p.predicted_size_acres) ∧
      minSizeValue (some p) = jnullify (jOr s.min_acres p.size_min_acres) ∧
      maxSizeValue (some p) = jnullify (jOr s.max_acres p.size_max_acres)) ∧
    (expectedSizeValue (some p) = JVal.null →
      displayedExpectedInput (some p) = JVal.num (.fin 3807)) ∧
    (expectedSizeValue (some p) ≠ JVal.null →
      displayedExpectedInput (some p) = expectedSizeValue (some p)) ∧
    (minSizeValue (some p) = JVal.null →
      displayedMinInput (some p) = JVal.num (.fin 2284)) ∧
    (maxSizeValue (some p) = JVal.null →
      displayedMaxInput (some p) = JVal.num (.fin 5711)) := by
  refine ⟨?_, ?_, ?_, ?_, ?_, ?_, ?_, ?_⟩
  · intro s hs
    simp [sizeResult, fallbackSizeResult, hs]
  · intro h1 h2
    have hsz : sizeResult (some p) =
        some { expected_acres := p.predicted_size_acres,
               min_acres := jnullify p.size_min_acres,
               max_acres := jnullify p.size_max_acres } := by
      simp [sizeResult, fallbackSizeResult, h1, h2]
    refine ⟨hsz, ?_⟩
    simp [expectedSizeValue, hsz, jOr_of_not_nullish h2, jnullify_of_not_nullish h2]
  · intro h1 h2
    cases htop : topCauseEntry (some p) with
    | none => simp [sizeResult, fallbackSizeResult, h1, h2, htop]
    | some c => simp [sizeResult, fallbackSizeResult, h1, h2, htop]
  · intro s hs
    refine ⟨?_, ?_, ?_⟩
    · simp [expectedSizeValue, hs]
    · simp [minSizeValue, hs]
    · simp [maxSizeValue, hs]
  · intro h; simp [displayedExpectedInput, h, SIZE_PLACEHOLDER]
  · intro h; simp [displayedExpectedInput, h]
  · intro h; simp [displayedMinInput, h, SIZE_PLACEHOLDER]
  · intro h; simp [displayedMaxInput, h, SIZE_PLACEHOLDER]

/-- C1 (counterexample): on a response whose explicit size object carries
only a minimum while a legacy flat expected value is present, the
displayed triple blends three sources — expected 99 from the legacy flat
field, min 5 from the explicit size object, max 5711 from the static
placeholder — refuting that the displayed triple is taken as a whole from
exactly one source. -/
theorem C1_counterexample :
    sizeResult (some mixedSizePrediction) =
      some { expected_acres := JVal.undef, min_acres := JVal.num (.fin 5),
             max_acres := JVal.undef } ∧
    displayedExpectedInput (some mixedSizePrediction) = JVal.num (.fin 99) ∧
    displayedMinInput (some mixedSizePrediction) = JVal.num (.fin 5) ∧
    displayedMaxInput (some mixedSizePrediction) = JVal.num (.fin 5711) := by
  decide

/-- C1 (witness): a response with only the legacy flat expected size next
to a per-cause acreage of 4000 resolves its expected size to the legacy
99, not the per-cause value. -/
theorem C1_witness :
    expectedSizeValue (some legacyWithCausePrediction) = JVal.num (.fin 99) :=
  ((C1_amended legacyWithCausePrediction).2.1 rfl rfl).2

/-- C2: an HTTP 2xx response whose body is empty or unparseable succeeds:
the empty object is stored as the prediction, the status becomes the
ready banner (not the failure banner), and the empty object normalizes
to no data, so every display falls back to the static placeholders. -/
theorem C2_theorem (s : UIState) (st : String)
    (h1 : s.stateCode ≠ "") (h2 : s.coords.isSome = true) :
    (handleRunPrediction s (.httpResponse true st none)).2 = true ∧
    (handleRunPrediction s (.httpResponse true st none)).1.statusTitle = "Prediction ready" ∧
    (handleRunPrediction s (.httpResponse true st none)).1.statusTitle ≠ "Prediction failed" ∧
    (handleRunPrediction s (.httpResponse true st none)).1.prediction = some emptyPrediction ∧
    (handleRunPrediction s (.httpResponse true st none)).1.message = "Likely cause: Unknown cause." ∧
    (handleRunPrediction s (.httpResponse true st none)).1.isPredicting = false ∧
    predCauses (some emptyPrediction) = [] ∧
    sizeResult (some emptyPrediction) = none ∧
    displayedExpectedInput (some emptyPrediction) = JVal.num (.fin 3807) ∧
    displayedMinInput (some emptyPrediction) = JVal.num (.fin 2284) ∧
    displayedMaxInput (some emptyPrediction) = JVal.num (.fin 5711) ∧
    displayedCauses (some emptyPrediction) = placeholderDisplay := by
  obtain ⟨c, hc⟩ := Option.isSome_iff_exists.mp h2
  simp only [handleRunPrediction, if_neg h1, hc, if_true]
  refine ⟨?_, ?_, ?_, ?_, ?_, ?_, ?_, ?_, ?_, ?_, ?_, ?_⟩ <;> trivial

/-- C2 (witness): the theorem applied to a ready state and an empty 2xx
body. -/
theorem C2_witness :
    (handleRunPrediction runReadyState (.httpResponse true "OK" none)).1.statusTitle =
      "Prediction ready" :=
  (C2_theorem runReadyState "OK" (by decide) (by decide)).2.1

/-- C3: normalizing the sizes_by_cause scenario yields the Lightning and
Human causes in input order with probabilities 0.6 and 0.25 and the
Human acreage fields null; the resolved size triple is 4000/2500/6000,
taken from the top cause because neither an explicit size object nor
legacy flat fields are present; and in general a non-empty
sizes_by_cause is preferred over the cause-probability source. -/
theorem C3_theorem :
    (∀ p : Option Prediction, sizesByCause p ≠ [] → rawCauseEntries p = sizesByCause p) ∧
    predCauses (some scenarioSizesByCause) =
      [ { label := .str ("Lightning"), probability := 3/5,
          expected_acres := some (.fin 4000), min_acres := some (.fin 2500),
          max_acres := some (.fin 6000) },
        { label := .str ("Human"), probability := 1/4,
          expected_acres := none, min_acres := none, max_acres := none } ] ∧
    fallbackSizeResult (some scenarioSizesByCause) = none ∧
    sizeResult (some scenarioSizesByCause) =
      some { expected_acres := .num (.fin 4000), min_acres := .num (.fin 2500),
             max_acres := .num (.fin 6000) } ∧
    expectedSizeValue (some scenarioSizesByCause) = .num (.fin 4000) ∧
    minSizeValue (some scenarioSizesByCause) = .num (.fin 2500) ∧
    maxSizeValue (some scenarioSizesByCause) = .num (.fin 6000) := by
  have hL : normalizeEntry lightningEntry =
      { label := .str ("Lightning"), probability := 3/5,
        expected_acres := some (.fin 4000), min_acres := some (.fin 2500),
        max_acres := some (.fin 6000) } := by
    show ({ label := .str ("Lightning"), probability := clamp01 (6/10),
            expected_acres := some (.fin 4000), min_acres := some (.fin 2500),
            max_acres := some (.fin 6000) } : NormCause) = _
    rw [clamp01_of_mem (by norm_num) (by norm_num)]
    norm_num
  have hH : normalizeEntry humanEntry =
      { label := .str ("Human"), probability := 1/4,
        expected_acres := none, min_acres := none, max_acres := none } := by
    show ({ label := .str ("Human"), probability := clamp01 (25/100),
            expected_acres := none, min_acres := none, max_acres := none } : NormCause) = _
    rw [clamp01_of_mem (by norm_num) (by norm_num)]
    norm_num
  have hpc : predCauses (some scenarioSizesByCause) =
      [ { label := .str ("Lightning"), probability := 3/5,
          expected_acres := some (.fin 4000), min_acres := some (.fin 2500),
          max_acres := some (.fin 6000) },
        { label := .str ("Human"), probability := 1/4,
          expected_acres := none, min_acres := none, max_acres := none } ] := by
    show List.filter (fun item => decide (0 < item.probability))
        [normalizeEntry lightningEntry, normalizeEntry humanEntry] = _
    rw [hL, hH]
    simp only [List.filter_cons, List.filter_nil, decide_eq_true_eq]
    norm_num
  have htop : topCauseEntry (some scenarioSizesByCause) =
      some { label := .str ("Lightning"), probability := 3/5,
             expected_acres := some (.fin 4000), min_acres := some (.fin 2500),
             max_acres := some (.fin 6000) } := by
    rw [topCauseEntry, hpc]
    rfl
  have hfb : fallbackSizeResult (some scenarioSizesByCause) = none := rfl
  have hsz : sizeResult (some scenarioSizesByCause) =
      some { expected_acres := .num (.fin 4000), min_acres := .num (.fin 2500),
             max_acres := .num (.fin 6000) } := by
    simp only [sizeResult, hfb, htop, optNumToJVal]
  have hev : expectedSizeValue (some scenarioSizesByCause) = .num (.fin 4000) := by
    simp [expectedSizeValue, hsz, jOr, jnullify, JVal.isNullish]
  have hmn : minSizeValue (some scenarioSizesByCause) = .num (.fin 2500) := by
    simp [minSizeValue, hsz, jOr, jnullify, JVal.isNullish]
  have hmx : maxSizeValue (some scenarioSizesByCause) = .num (.fin 6000) := by
    simp [maxSizeValue, hsz, jOr, jnullify, JVal.isNullish]
  refine ⟨?_, hpc, hfb, hsz, hev, hmn, hmx⟩
  intro p h
  unfold rawCauseEntries
  rw [if_pos (List.length_pos.mpr h)]

/-- C3 (witness): the preference applied to the scenario response. -/
theorem C3_witness :
    rawCauseEntries (some scenarioSizesByCause) = sizesByCause (some scenarioSizesByCause) :=
  C3_theorem.1 (some scenarioSizesByCause) (by decide)

/-- C4 (amended): changing any input clears the held result, but the
status text is the fixed refresh message only for a month change (with
coordinates set, which always holds once a result exists) or a state
change to a non-empty state with coordinates set; a state change to the
empty selection restores the initial guidance message, and a location
selection composes a dynamic message from the coordinates, month and
state rather than the fixed refresh message. -/
theorem C4_amended (s : UIState) (m : ℕ) (next : String) (c : Coords)
    (hp : s.prediction.isSome = true) :
    (handleMonthChange s m).prediction = none ∧
    (s.coords.isSome = true → (handleMonthChange s m).message = INPUT_CHANGED_MESSAGE) ∧
    (handleStateChange s next).prediction = none ∧
    (next ≠ "" → s.coords.isSome = true →
      (handleStateChange s next).message = INPUT_CHANGED_MESSAGE) ∧
    (next = "" → (handleStateChange s next).message = DEFAULT_STATUS_MESSAGE) ∧
    (handleLocationSelect s c).prediction = none ∧
    (handleLocationSelect s c).message = locationMessage c s.monthIndex s.stateCode ∧
    INPUT_CHANGED_MESSAGE ≠ DEFAULT_STATUS_MESSAGE := by
  refine ⟨?_, ?_, rfl, ?_, ?_, rfl, rfl, by decide⟩
  · unfold handleMonthChange
    split <;> rfl
  · intro h
    simp [handleMonthChange, h]
  · intro h1 h2
    simp [handleStateChange, h1, h2]
  · intro h1
    simp [handleStateChange, h1]

/-- C4 (counterexample): with a held result, a location and California
selected, changing the state to the empty selection clears the result
but sets the initial guidance message, and selecting a location sets a
dynamically composed message — in both cases not the fixed refresh
message the claim requires. -/
theorem C4_counterexample :
    (handleStateChange baseHeldState "").prediction = none ∧
    (handleStateChange baseHeldState "").message = DEFAULT_STATUS_MESSAGE ∧
    DEFAULT_STATUS_MESSAGE ≠ INPUT_CHANGED_MESSAGE ∧
    (handleLocationSelect baseHeldState ⟨40, -100⟩).message ≠ INPUT_CHANGED_MESSAGE := by
  decide

/-- C4 (witness): the amended claim applied to the held state for a month
change. -/
theorem C4_witness :
    (handleMonthChange baseHeldState 2).message = INPUT_CHANGED_MESSAGE :=
  (C4_amended baseHeldState 2 "AZ" ⟨1, 2⟩ (by decide)).2.1 (by decide)

/-- C5 (amended): a non-2xx response fails with the prior result cleared
and the failure banner; the message is the body's detail field when that
field is truthy (in particular any non-empty string), else the HTTP
status text when non-empty, else the generic fallback — a present but
empty detail string is skipped, falling through to the status text. -/
theorem C5_amended (s : UIState) (st : String) (parsed : Option Prediction)
    (h1 : s.stateCode ≠ "") (h2 : s.coords.isSome = true) :
    (handleRunPrediction s (.httpResponse false st parsed)).1.statusTitle = "Prediction failed" ∧
    (handleRunPrediction s (.httpResponse false st parsed)).1.prediction = none ∧
    (handleRunPrediction s (.httpResponse false st parsed)).1.isPredicting = false ∧
    (handleRunPrediction s (.httpResponse false st parsed)).2 = true ∧
    (∀ d : String, detailOf parsed = .str d → d ≠ "" →
      (handleRunPrediction s (.httpResponse false st parsed)).1.message = d) ∧
    ((detailOf parsed).truthy = false → st ≠ "" →
      (handleRunPrediction s (.httpResponse false st parsed)).1.message = st) ∧
    ((detailOf parsed).truthy = false → st = "" →
      (handleRunPrediction s (.httpResponse false st parsed)).1.message =
        "Prediction request failed.") := by
  obtain ⟨c, hc⟩ := Option.isSome_iff_exists.mp h2
  simp only [handleRunPrediction, if_neg h1, hc]
  refine ⟨by trivial, by trivial, by trivial, by trivial, ?_, ?_, ?_⟩
  · intro d hd hne
    simp [errorDetail, hd, JVal.truthy, hne, JVal.jsToString]
  · intro ht hne
    simp [errorDetail, ht, hne]
  · intro ht he
    simp [errorDetail, ht, he]

/-- C5 (counterexample): a 404 whose body's detail field is present but
the empty string produces the status text, not the detail field, so the
message is not equal to the present detail value. -/
theorem C5_counterexample :
    detailOf emptyDetailBody = JVal.str "" ∧
    (handleRunPrediction runReadyState
        (.httpResponse false "Not Found" emptyDetailBody)).1.message = "Not Found" ∧
    ("Not Found" : String) ≠ "" := by
  decide

/-- C5 (witness): the coverage scenario — 404 with detail "location out
of coverage" fails with exactly that message. -/
theorem C5_witness :
    (handleRunPrediction runReadyState
        (.httpResponse false "Not Found" coverageDetailBody)).1.message =
      "location out of coverage" ∧
    (handleRunPrediction runReadyState
        (.httpResponse false "Not Found" coverageDetailBody)).1.statusTitle =
      "Prediction failed" :=
  ⟨(C5_amended runReadyState "Not Found" coverageDetailBody (by decide)
      (by decide)).2.2.2.2.1 ("location out of coverage") rfl (by decide),
   (C5_amended runReadyState "Not Found" coverageDetailBody (by decide) (by decide)).1⟩

lemma resolveFraction_of_not_num {e : RawCauseEntry}
    (hn : e.probability.isNumber = false) :
    resolveFraction e =
      (match e.value with
       | .num n => n.div100
       | _ => .fin 0) := by
  unfold resolveFraction
  cases hpro : e.probability with
  | num n => rw [hpro] at hn; simp [JVal.isNumber] at hn
  | undef => rfl
  | null => rfl
  | str s => rfl
  | bool b => rfl

/-- C6 (amended): a numeric probability field is used directly and a
numeric value field is divided by 100, else the fraction is 0; but the
resolved fraction is replaced by 0 when non-finite before the clamp to
the unit interval, so a finite value in 0..100 normalizes to exactly
value divided by 100, a finite numeric probability outside the unit
interval clamps to the nearest bound, and a non-finite numeric
probability (NaN or an infinity) yields 0, not a bound. -/
theorem C6_amended (e : RawCauseEntry) (q v : ℚ) :
    (e.probability = .num (.fin q) →
      (normalizeEntry e).probability = clamp01 q ∧
      (q < 0 → (normalizeEntry e).probability = 0) ∧
      (1 < q → (normalizeEntry e).probability = 1) ∧
      (0 ≤ q → q ≤ 1 → (normalizeEntry e).probability = q)) ∧
    (e.probability.isNumber = false → e.value = .num (.fin v) →
      (normalizeEntry e).probability = clamp01 (v / 100) ∧
      (0 ≤ v → v ≤ 100 → (normalizeEntry e).probability = v / 100)) ∧
    (e.probability.isNumber = false → e.value.isNumber = false →
      (normalizeEntry e).probability = 0) ∧
    ((resolveFraction e).isFinite = false → (normalizeEntry e).probability = 0) := by
  refine ⟨?_, ?_, ?_, ?_⟩
  · intro h
    have hp : (normalizeEntry e).probability = clamp01 q := by
      simp [normalizeEntry, resolveFraction, h, finiteOrZero]
    refine ⟨hp, ?_, ?_, ?_⟩
    · intro hq; rw [hp]; exact clamp01_of_neg hq
    · intro hq; rw [hp]; exact clamp01_of_gt_one hq
    · intro h0 h1; rw [hp]; exact clamp01_of_mem h0 h1
  · intro hn hv
    have hr : resolveFraction e = .fin (v / 100) := by
      rw [resolveFraction_of_not_num hn, hv]
      rfl
    have hp : (normalizeEntry e).probability = clamp01 (v / 100) := by
      simp [normalizeEntry, hr, finiteOrZero]
    refine ⟨hp, ?_⟩
    intro h0 h1
    rw [hp]
    exact clamp01_of_mem (by positivity)
      ((div_le_one (by norm_num)).mpr (by linarith))
  · intro hn hv
    have hr : resolveFraction e = .fin 0 := by
      rw [resolveFraction_of_not_num hn]
      cases hval : e.value with
      | num n => rw [hval] at hv; simp [JVal.isNumber] at hv
      | undef => rfl
      | null => rfl
      | str s2 => rfl
      | bool b => rfl
    simp [normalizeEntry, hr, finiteOrZero, clamp01_zero]
  · intro h
    cases hrf : resolveFraction e with
    | fin q2 => rw [hrf] at h; simp [JsNum.isFinite] at h
    | nan => simp [normalizeEntry, hrf, finiteOrZero, clamp01_zero]
    | posInf => simp [normalizeEntry, hrf, finiteOrZero, clamp01_zero]
    | negInf => simp [normalizeEntry, hrf, finiteOrZero, clamp01_zero]

/-- C6 (counterexample): the probability field Infinity is numeric and
lies outside the unit interval, yet it normalizes to 0, not to the
nearest bound 1 the claim requires. -/
theorem C6_counterexample :
    infProbEntry.probability.isNumber = true ∧
    (normalizeEntry infProbEntry).probability = 0 ∧ (0 : ℚ) ≠ 1 := by
  refine ⟨rfl, ?_, by norm_num⟩
  show clamp01 (finiteOrZero JsNum.posInf) = 0
  simp [finiteOrZero, clamp01_zero]

/-- C6 (witness): the amended claim applied to a value field of 25,
normalizing to exactly 25 divided by 100. -/
theorem C6_witness :
    (normalizeEntry humanEntry).probability = 25 / 100 :=
  ((C6_amended humanEntry 0 25).2.1 rfl rfl).2 (by norm_num) (by norm_num)

/-- C7: every normalized cause has strictly positive probability, the
normalized list is a sublist of the normalized images of the raw entries
(so input order is preserved), and every raw entry whose normalized
probability is strictly positive is kept. -/
theorem C7_theorem (entries : List RawCauseEntry) :
    (∀ c ∈ normalizedCauses entries, 0 < c.probability) ∧
    List.Sublist (normalizedCauses entries) (entries.map normalizeEntry) ∧
    (∀ e ∈ entries, 0 < (normalizeEntry e).probability →
      normalizeEntry e ∈ normalizedCauses entries) := by
  refine ⟨?_, ?_, ?_⟩
  · intro c hc
    exact mem_normalizedCauses_pos hc
  · exact List.filter_sublist _
  · intro e he hpos
    exact List.mem_filter.mpr ⟨List.mem_map_of_mem _ he, decide_eq_true hpos⟩

/-- C7 (witness): the keep direction applied to a two-entry list whose
second entry has probability zero. -/
theorem C7_witness :
    normalizeEntry posEntry ∈ normalizedCauses [posEntry, zeroEntry] :=
  (C7_theorem [posEntry, zeroEntry]).2.2 posEntry (by decide) (by decide)

/-- C8: the displayed cause list is all-or-nothing — exactly the 4 static
placeholder rows when normalization yields no causes, else exactly the
display images of the first 4 normalized causes, never a mixture; the
empty response normalizes to no causes and so displays the 4 placeholder
rows and the placeholder size triple 3807/2284/5711. -/
theorem C8_theorem (p : Option Prediction) :
    (predCauses p = [] → displayedCauses p = placeholderDisplay) ∧
    (predCauses p ≠ [] →
      displayedCauses p = ((predCauses p).take 4).map displayOfNorm) ∧
    predCauses (some emptyPrediction) = [] ∧
    displayedCauses (some emptyPrediction) = placeholderDisplay ∧
    placeholderDisplay.length = 4 ∧
    displayedExpectedInput (some emptyPrediction) = JVal.num (.fin 3807) ∧
    displayedMinInput (some emptyPrediction) = JVal.num (.fin 2284) ∧
    displayedMaxInput (some emptyPrediction) = JVal.num (.fin 5711) := by
  refine ⟨?_, ?_, by decide, by decide, by decide, by decide, by decide, by decide⟩
  · intro h
    unfold displayedCauses
    rw [h]
    simp
  · intro h
    unfold displayedCauses
    rw [if_pos (List.length_pos.mpr h)]

/-- C8 (witness): the placeholder branch applied to the empty response. -/
theorem C8_witness :
    displayedCauses (some emptyPrediction) = placeholderDisplay :=
  (C8_theorem (some emptyPrediction)).1 (by decide)

/-- C9: a non-finite resolved probability fraction (NaN or an infinity)
is replaced by 0 before the clamp, so the entry normalizes to
probability 0 and is dropped from the normalized list; and every
retained entry's probability is a (finite) rational in the unit
interval. -/
theorem C9_theorem (e : RawCauseEntry) (entries : List RawCauseEntry) :
    ((resolveFraction e).isFinite = false → (normalizeEntry e).probability = 0) ∧
    ((resolveFraction e).isFinite = false → normalizeEntry e ∉ normalizedCauses entries) ∧
    (∀ c ∈ normalizedCauses entries, 0 ≤ c.probability ∧ c.probability ≤ 1) := by
  have hz : (resolveFraction e).isFinite = false → (normalizeEntry e).probability = 0 := by
    intro h
    cases hrf : resolveFraction e with
    | fin q => rw [hrf] at h; simp [JsNum.isFinite] at h
    | nan => simp [normalizeEntry, hrf, finiteOrZero, clamp01_zero]
    | posInf => simp [normalizeEntry, hrf, finiteOrZero, clamp01_zero]
    | negInf => simp [normalizeEntry, hrf, finiteOrZero, clamp01_zero]
  refine ⟨hz, ?_, ?_⟩
  · intro h hmem
    have hpos := mem_normalizedCauses_pos hmem
    rw [hz h] at hpos
    exact lt_irrefl 0 hpos
  · intro c hc
    obtain ⟨e2, _, hmap⟩ := List.mem_map.mp (mem_normalizedCauses_mem_map hc)
    rw [← hmap]
    exact ⟨clamp01_nonneg _, clamp01_le_one _⟩

/-- C9 (witness): a NaN probability entry normalizes to 0 and is dropped
from the normalized list built from it. -/
theorem C9_witness :
    (normalizeEntry nanProbEntry).probability = 0 ∧
    normalizeEntry nanProbEntry ∉ normalizedCauses [nanProbEntry] :=
  ⟨(C9_theorem nanProbEntry [nanProbEntry]).1 rfl,
   (C9_theorem nanProbEntry [nanProbEntry]).2.1 rfl⟩

/-- C10: a submission with no state selected, or with a state but no
coordinates, changes only the status title and message — the held
prediction, the in-flight flag and all inputs are untouched — and issues
no network request; the state check runs first, so with both missing the
state-required banner is shown. -/
theorem C10_theorem (s : UIState) (net : NetOutcome) :
    (s.stateCode = "" →
      handleRunPrediction s net =
        ({ s with statusTitle := "State required",
                  message := "Select a state from the dropdown first." }, false)) ∧
    (s.stateCode ≠ "" → s.coords = none →
      handleRunPrediction s net =
        ({ s with statusTitle := "Location required",
                  message := "Select a location on the map first." }, false)) := by
  constructor
  · intro h
    unfold handleRunPrediction
    rw [if_pos h]
  · intro h1 h2
    unfold handleRunPrediction
    rw [if_neg h1, h2]

/-- C10 (witness): the state guard applied to the initial state, which
has neither a state nor coordinates, yielding the state-required banner
with nothing else changed and no request issued. -/
theorem C10_witness :
    handleRunPrediction noInputState (.networkError none) =
      ({ noInputState with statusTitle := "State required",
                           message := "Select a state from the dropdown first." }, false) :=
  (C10_theorem noInputState (.networkError none)).1 rfl
